import Mathlib

/-!
# Verification of the bk-cmdb host-snapshot pipeline

Shallow embedding of `src/source_controller/coreservice/service/process_instance_relation.go`
(the `hostsnap` package part: `Analyze`, `needToUpdate`, `parseSetter`, `getIPS`,
`getHostByVal`, `fetch` and the `HostInst`/`HostCache` data model).

Modelling choices:
* Go `interface{}` values stored in host records / setter maps are modelled by `GoVal`.
  Go interface equality (`compareVal != val`) compares dynamic type and value; this is
  `DecidableEq` on `GoVal` (e.g. `int64(5)` and `uint64(5)` are unequal).
* Go `float64` arithmetic in the tolerance check is modelled over `ℚ` (exact arithmetic);
  the claims under study concern the comparison structure, not rounding.
* Machine integers: the `uint64` accumulation in `parseSetter` (`disk`) is taken
  modulo `2 ^ 64`; right shifts cannot overflow.
* The raw gjson message is modelled as a structure (`SnapVal` / `SnapData`) whose fields
  are the values of exactly the gjson paths the source reads, with gjson's defaults
  (`""`, `0`, `[]`) standing for absent paths.  gjson traversal itself never fails,
  which is why parsing is total.
* External collaborators (mongo, core-service HTTP APIs, redis) are an `Env` of
  per-call responses; `Analyze` additionally returns the list of external calls it
  issued, the final state of the resolved record and of the cache, so that claims about
  "no downstream call" and "record left unchanged" are statable.
* The cached `HostInst` is mutated through a pointer in Go; here the final record state
  is returned in `AnalyzeOut.hostFinal` (the cache aliases that record in the source).
-/

/- The Batteries rational-number operations are `@[irreducible]`, which blocks
`decide`-style evaluation of the tolerance check on concrete inputs; restore the
ordinary reducibility for this file. -/
attribute [local semireducible] Rat.mul Rat.add Rat.sub Rat.inv Rat.ofScientific

namespace HostSnap

/-- A Go `interface{}` value as it occurs in host records and setter maps. -/
inductive GoVal where
  | vnil
  | vint (n : Int)
  | vuint (n : Nat)
  | vfloat (q : ℚ)
  | vstr (s : String)
  deriving DecidableEq

/-- Go `error` results: `nil` or an error with a message. -/
inductive GoErr where
  | ok
  | fail (msg : String)
  deriving DecidableEq

/-- `common.BKHostIDField`. -/
def bkHostIDField : String := "bk_host_id"
/-- `common.BKHostInnerIPField`. -/
def bkHostInnerIPField : String := "bk_host_innerip"
/-- `common.BKHostOuterIPField`. -/
def bkHostOuterIPField : String := "bk_host_outerip"
/-- `common.BKCloudIDField`. -/
def bkCloudIDField : String := "bk_cloud_id"
/-- `common.RedisSnapKeyPrefix` (constant defined outside src/; exact value immaterial). -/
def redisSnapKey : String := "snapshot"

/-- A `HostInst`'s underlying `map[string]interface{}`, as an association list. -/
abbrev HostInst := List (String × GoVal)

/-- `HostInst.get`: a Go map read; a missing key yields the `nil` interface. -/
def hget (h : HostInst) (k : String) : GoVal :=
  match h.lookup k with
  | some v => v
  | none => GoVal.vnil

/-- `HostInst.set`: Go map assignment (replace the entry for `k`, or append it). -/
def hset : HostInst → String → GoVal → HostInst
  | [], k, v => [(k, v)]
  | kv :: rest, k, v => if kv.1 = k then (k, v) :: rest else kv :: hset rest k v

/-- `copyVal`: write every `setter` entry into the record (source lines 513-517). -/
def copyVal (a : List (String × GoVal)) (b : HostInst) : HostInst :=
  a.foldl (fun acc kv => hset acc kv.1 kv.2) b

/-- The four tolerance-eligible numeric fields of `needToUpdate`. -/
def toleranceFields : List String := ["bk_cpu", "bk_cpu_mhz", "bk_disk", "bk_mem"]

/-- Modelled from the spec: `util.GetFloat64ByInterface` (declared outside src/)
converts numeric values to floating point and fails on non-numeric values. -/
def getFloat64ByInterface : GoVal → Option ℚ
  | GoVal.vint n => some (n : ℚ)
  | GoVal.vuint n => some (n : ℚ)
  | GoVal.vfloat q => some q
  | _ => none

/-- One iteration of the `needToUpdate` loop body (source lines 520-543): decide
whether field `key` with candidate value `val` and current value `compareVal`
triggers an update.  `toF` is the float conversion, `percent` the configured
`changeRangePercent`. -/
def fieldNeedsUpdate (toF : GoVal → Option ℚ) (percent : Int)
    (key : String) (val compareVal : GoVal) : Bool :=
  if compareVal = GoVal.vnil ∧ val = GoVal.vstr "" then false
  else if compareVal ≠ val then
    if key ∈ toleranceFields then
      match toF val, toF compareVal with
      | some srcF, some cmpF =>
        let rangeVal := cmpF * ((percent : ℚ) / 100)
        let diff := srcF - cmpF
        if -rangeVal < diff ∧ diff < rangeVal then false else true
      | _, _ => false
    else true
  else false

/-- `needToUpdate` (source lines 519-545): scan the candidate fields, returning
`true` at the first field that shows a genuine difference. -/
def needToUpdate (toF : GoVal → Option ℚ) (percent : Int) :
    List (String × GoVal) → HostInst → Bool
  | [], _ => false
  | (key, val) :: rest, cmp =>
    if fieldNeedsUpdate toF percent key val (hget cmp key) then true
    else needToUpdate toF percent rest cmp

example : fieldNeedsUpdate getFloat64ByInterface 10 "bk_cpu"
    (GoVal.vint 110) (GoVal.vint 100) = true := by decide

example : fieldNeedsUpdate getFloat64ByInterface 10 "bk_cpu"
    (GoVal.vint 109) (GoVal.vint 100) = false := by decide

example : fieldNeedsUpdate getFloat64ByInterface 10 "bk_mem"
    (GoVal.vuint 2048) (GoVal.vuint 2047) = false := by decide

example : fieldNeedsUpdate getFloat64ByInterface 10 "bk_os_name"
    (GoVal.vstr "a") (GoVal.vstr "b") = true := by decide

example : fieldNeedsUpdate getFloat64ByInterface 10 "bk_mac"
    (GoVal.vstr "") GoVal.vnil = false := by decide

/-! ## The raw message and the snapshot parser -/

/-- One entry of `data.net.interface`: its `hardwareaddr` and the `addr` strings of
its `addrs` array. -/
structure NetIface where
  hardwareaddr : String
  addrs : List String
  deriving DecidableEq

/-- The gjson paths of the message body (`data.…`) that `parseSetter` reads.
A path that is absent from the payload carries gjson's default (`""`, `0`, `[]`).
`cpuCores` is `data.cpu.cpuinfo.#.cores`, `cpuModelName0` and `cpuMhz0` come from
`data.cpu.cpuinfo.0`, `diskTotals` is `data.disk.usage.#.total` (uint64 readings),
`memTotal` is `data.mem.meminfo.total` (a uint64 reading). -/
structure SnapData where
  cpuCores : List Int
  cpuModelName0 : String
  cpuMhz0 : Int
  diskTotals : List Nat
  memTotal : Nat
  hostname : String
  os : String
  platform : String
  platformVersion : String
  interfaces : List NetIface
  systemtype : String
  dockerClientVersion : String
  dockerServerVersion : String
  deriving DecidableEq

/-- The whole (already gjson-parsed) message: top-level `ip`, `cloudid`, `bizid`
(as rendered by gjson's `String()`) and the `data` subdocument. -/
structure SnapVal where
  ip : String
  cloudid : String
  bizid : String
  data : SnapData
  deriving DecidableEq

/-- `common.HostOSTypeEnumLinux` (constant defined outside src/). -/
def hostOSTypeEnumLinux : String := "1"
/-- `common.HostOSTypeEnumWindows` (constant defined outside src/). -/
def hostOSTypeEnumWindows : String := "2"
/-- `common.HostOSTypeEnumAIX` (constant defined outside src/). -/
def hostOSTypeEnumAIX : String := "3"
/-- `common.HostFieldDockerClientVersion` (constant defined outside src/). -/
def hostFieldDockerClientVersion : String := "docker_client_version"
/-- `common.HostFieldDockerServerVersion` (constant defined outside src/). -/
def hostFieldDockerServerVersion : String := "docker_server_version"

/-!
Executable string helpers.  The corresponding core `String` functions
(`trim`, `toLower`, `splitOn`, `startsWith`) are defined by well-founded recursion
over byte positions and do not reduce under kernel evaluation, so the embedding
uses structurally recursive character-list implementations.  They model the Go
`strings` functions the source calls (`TrimSpace`, `ToLower`, `Split`, `HasPrefix`,
`Replace` with count 1); unicode case/space classes are approximated by the
ASCII-adequate `Char` predicates, which agree on every value the source compares.
-/

/-- Go `strings.TrimSpace`. -/
def goTrim (s : String) : String :=
  String.mk (((s.toList.dropWhile Char.isWhitespace).reverse.dropWhile
    Char.isWhitespace).reverse)

/-- Go `strings.ToLower`. -/
def goToLower (s : String) : String :=
  String.mk (s.toList.map Char.toLower)

/-- Go `strings.HasPrefix`. -/
def goHasPfx (s pre : String) : Bool :=
  pre.toList.isPrefixOf s.toList

/-- Worker for `goSplit`: scan with fuel (the length of the remaining input),
cutting at each occurrence of the (nonempty) separator. -/
def goSplitAux (pat : List Char) : Nat → List Char → List Char → List (List Char)
  | _, [], acc => [acc.reverse]
  | 0, cs, acc => [acc.reverse ++ cs]
  | fuel + 1, c :: rest, acc =>
    if pat.isPrefixOf (c :: rest) then
      acc.reverse :: goSplitAux pat fuel ((c :: rest).drop pat.length) []
    else
      goSplitAux pat fuel rest (c :: acc)

/-- Go `strings.Split` (for a nonempty separator). -/
def goSplit (s sep : String) : List String :=
  if sep.toList = [] then [s]
  else (goSplitAux sep.toList s.toList.length s.toList []).map String.mk

/-- Join a list of strings with a separator (inverse of `goSplit`). -/
def goJoin (sep : String) : List String → String
  | [] => ""
  | [x] => x
  | x :: rest => x ++ sep ++ goJoin sep rest

/-- Go's `strings.Replace(s, pat, rep, 1)`: replace the first occurrence only. -/
def replaceFirst (s pat rep : String) : String :=
  match goSplit s pat with
  | [] => s
  | [_] => s
  | first :: rest => first ++ rep ++ goJoin pat rest

/-- Strip a subnet suffix: `strings.Split(addr, "/")[0]`. -/
def stripSubnet (addr : String) : String :=
  (goSplit addr "/").headD ""

example : goSplit "127.0.0.1/8" "/" = ["127.0.0.1", "8"] := by decide
example : goTrim "  a b\t" = "a b" := by decide
example : goToLower "LiNuX" = "linux" := by decide
example : goHasPfx "127.0.0.5" "127.0.0." = true := by decide
example : replaceFirst "2.6.32.x86_64.x86_64" ".x86_64" "" = "2.6.32.x86_64" := by decide

/-- `parseSetter` (source lines 547-662): normalize one snapshot into the fixed
field map.  `disk` accumulates `total >> 10 >> 10 >> 10` per partition into a
`uint64` (hence the `% 2 ^ 64`); `mem` is shifted by 20 bits at the end.  The
MAC addresses are found by correlating interface addresses (subnet stripped)
against the host's known inner/outer IP; the logging of empty fields has no
effect on the result and is omitted. -/
def parseSetter (d : SnapData) (innerIP outerIP : String) : List (String × GoVal) :=
  let cpumodule := goTrim d.cpuModelName0
  let cupnum := d.cpuCores.foldl (fun a c => a + c) 0
  let cpuMhz := d.cpuMhz0
  let disk := d.diskTotals.foldl (fun a t => (a + (t >>> 10 >>> 10 >>> 10)) % 2 ^ 64) 0
  let mem := d.memTotal
  let hostname := goTrim d.hostname
  let ostype := goTrim d.os
  let platform := goTrim d.platform
  let version := d.platformVersion
  let triple :=
    if goToLower ostype = "linux" then
      let version := replaceFirst (replaceFirst version ".x86_64" "") ".i386" ""
      (hostOSTypeEnumLinux, ostype ++ " " ++ platform, version)
    else if goToLower ostype = "windows" then
      let version := replaceFirst version "Microsoft " ""
      let platform := replaceFirst platform "Microsoft " ""
      (hostOSTypeEnumWindows, platform, version)
    else if goToLower ostype = "aix" then
      (hostOSTypeEnumAIX, platform, version)
    else
      (ostype, platform, version)
  let version := goTrim triple.2.2
  let osname := goTrim triple.2.1
  let macs := d.interfaces.foldl (fun acc itf =>
    itf.addrs.foldl (fun acc addr =>
      let ip := stripSubnet addr
      if ip = innerIP then (acc.1, goTrim itf.hardwareaddr)
      else if ip = outerIP then (goTrim itf.hardwareaddr, acc.2)
      else acc) acc) ("", "")
  let osbit := goTrim d.systemtype
  let dockerClientVersion := goTrim d.dockerClientVersion
  let dockerServerVersion := goTrim d.dockerServerVersion
  let mem := mem >>> 10 >>> 10
  [("bk_cpu", GoVal.vint cupnum),
   ("bk_cpu_module", GoVal.vstr cpumodule),
   ("bk_cpu_mhz", GoVal.vint cpuMhz),
   ("bk_disk", GoVal.vuint disk),
   ("bk_mem", GoVal.vuint mem),
   ("bk_os_type", GoVal.vstr triple.1),
   ("bk_os_name", GoVal.vstr osname),
   ("bk_os_version", GoVal.vstr version),
   ("bk_host_name", GoVal.vstr hostname),
   ("bk_outer_mac", GoVal.vstr macs.1),
   ("bk_mac", GoVal.vstr macs.2),
   ("bk_os_bit", GoVal.vstr osbit),
   (hostFieldDockerClientVersion, GoVal.vstr dockerClientVersion),
   (hostFieldDockerServerVersion, GoVal.vstr dockerServerVersion)]

/-- The empty payload: every gjson path at its default. -/
def emptySnapData : SnapData :=
  { cpuCores := [], cpuModelName0 := "", cpuMhz0 := 0, diskTotals := [], memTotal := 0,
    hostname := "", os := "", platform := "", platformVersion := "", interfaces := [],
    systemtype := "", dockerClientVersion := "", dockerServerVersion := "" }

example :
    parseSetter
      { cpuCores := [1], cpuModelName0 := "Intel(R) Xeon(R) CPU E5-26xx v3",
        cpuMhz0 := 2294, diskTotals := [52843638784], memTotal := 1044832256,
        hostname := "VM_0_31_centos", os := "linux", platform := "centos",
        platformVersion := "6.2",
        interfaces := [⟨"28:31:52:1d:c6:0a", ["127.0.0.1/8"]⟩,
                       ⟨"52:54:00:19:2e:e8", ["127.0.0.1/24"]⟩],
        systemtype := "64-bit", dockerClientVersion := "", dockerServerVersion := "" }
      "192.168.1.7" ""
    = [("bk_cpu", GoVal.vint 1),
       ("bk_cpu_module", GoVal.vstr "Intel(R) Xeon(R) CPU E5-26xx v3"),
       ("bk_cpu_mhz", GoVal.vint 2294),
       ("bk_disk", GoVal.vuint 49),
       ("bk_mem", GoVal.vuint 996),
       ("bk_os_type", GoVal.vstr "1"),
       ("bk_os_name", GoVal.vstr "linux centos"),
       ("bk_os_version", GoVal.vstr "6.2"),
       ("bk_host_name", GoVal.vstr "VM_0_31_centos"),
       ("bk_outer_mac", GoVal.vstr ""),
       ("bk_mac", GoVal.vstr ""),
       ("bk_os_bit", GoVal.vstr "64-bit"),
       ("docker_client_version", GoVal.vstr ""),
       ("docker_server_version", GoVal.vstr "")] := by decide

/-! ## Host index (cache) and host resolution -/

/-- The `HostCache`'s `map[string]*HostInst`, as an association list keyed by
`cloudid::innerip`. -/
abbrev HostCache := List (String × HostInst)

/-- `HostCache.get`: a Go map read; missing key yields the nil pointer (`none`). -/
def cacheGet (c : HostCache) (k : String) : Option HostInst :=
  c.lookup k

/-- `HostCache.set`: Go map assignment. -/
def cacheSet : HostCache → String → HostInst → HostCache
  | [], k, v => [(k, v)]
  | kv :: rest, k, v => if kv.1 = k then (k, v) :: rest else kv :: cacheSet rest k v

/-- Does the cache have an entry under key `k`? -/
def hasKey (c : HostCache) (k : String) : Bool :=
  c.any (fun kv => kv.1 = k)

/-- `getIPS` (source lines 709-724): the top-level `ip` (kept unless it has the
`127.0.0.` prefix, and not subnet-stripped), then every interface address in
reported order, subnet-stripped, skipping stripped addresses with the
`127.0.0.` prefix.  Written as the source's double append loop. -/
def getIPS (msg : SnapVal) : List String :=
  let ips := if goHasPfx msg.ip "127.0.0." = false then [msg.ip] else []
  msg.data.interfaces.foldl (fun acc itf =>
    itf.addrs.foldl (fun acc addr =>
      let ip := stripSubnet addr
      if goHasPfx ip "127.0.0." then acc else acc ++ [ip]) acc) ips

/-- The candidate IP list as the specification words it: the message's top-level
declared IP first (unless it begins with `127.0.0.`), then every reported
interface address in reported order with any subnet suffix stripped and any
address beginning with `127.0.0.` skipped. -/
def specCandidateIPs (msg : SnapVal) : List String :=
  (if goHasPfx msg.ip "127.0.0." then [] else [msg.ip]) ++
    msg.data.interfaces.flatMap (fun itf =>
      itf.addrs.filterMap (fun addr =>
        let ip := stripSubnet addr
        if goHasPfx ip "127.0.0." then none else some ip))

/-- The cache-probe loop of `getHostByVal` (source lines 671-675): try the keys
`cloudid::ip` in candidate order; first hit wins. -/
def probeCache (cache : HostCache) (cloudid : String) : List String → Option HostInst
  | [] => none
  | ip :: rest =>
    match cacheGet cache (cloudid ++ "::" ++ ip) with
    | some host => some host
    | none => probeCache cache cloudid rest

/-- `fmt.Sprint` of a stored value, as used to build cache keys from backing-store
rows.  (Go's float rendering is approximated; the keys the source builds come from
integer cloud ids and string IPs.) -/
def goSprint : GoVal → String
  | GoVal.vnil => "<nil>"
  | GoVal.vint n => toString n
  | GoVal.vuint n => toString n
  | GoVal.vfloat q => toString q
  | GoVal.vstr s => s

/-- `strconv.Atoi`: optional sign followed by at least one decimal digit.
(The int64 range check on overflow is not modelled; no claim exercises it.) -/
def digitsToNat : List Char → Option Nat
  | [] => none
  | cs =>
    cs.foldl (fun acc c =>
      match acc with
      | none => none
      | some n => if c.isDigit then some (n * 10 + (c.toNat - 48)) else none)
      (some 0)

/-- `strconv.Atoi` on the message's `cloudid` string. -/
def atoiOpt (s : String) : Option Int :=
  match s.toList with
  | [] => none
  | '+' :: rest => (digitsToNat rest).map (fun n => (n : Int))
  | '-' :: rest => (digitsToNat rest).map (fun n => -(n : Int))
  | cs => (digitsToNat cs).map (fun n => (n : Int))

/-- The external calls `Analyze` and `getHostByVal` can issue, in issue order. -/
inductive ExtCall where
  | dbFindHosts (cloudID : Int) (ips : List String) (ownerID : String)
  | redisSet (key : String)
  | updateInstance (hostID : Int)
  | getHostByID (hostID : String)
  | getHostModuleRelation (hostID : Int)
  | getAuditLogHeader
  | saveAuditLog (hostID : Int) (bizID : Int)
  deriving DecidableEq

/-- The response of one HTTP collaborator call: a transport error (`err != nil`),
or an application response with its `Result` flag, error message and payload. -/
inductive Reply (α : Type) where
  | transportErr (msg : String)
  | resp (result : Bool) (errMsg : String) (data : α)
  deriving DecidableEq

/-- `true` when the call failed either way (transport error or `Result == false`). -/
def replyFailedB {α : Type} : Reply α → Bool
  | Reply.transportErr _ => true
  | Reply.resp ok _ _ => !ok

/-- `true` only for a transport error. -/
def transportOnlyB {α : Type} : Reply α → Bool
  | Reply.transportErr _ => true
  | Reply.resp _ _ _ => false

/-- The environment of external collaborators: the backing-store query used on a
cache miss, and the per-call responses of the update / re-fetch / module-relation /
audit-header / audit-save calls (each is issued at most once per message).
A backing-store query error is only logged by the source and leaves the result
empty, so it is represented by an empty row list. -/
structure Env where
  dbHosts : Int → List String → String → List HostInst
  updateInstance : Reply Unit
  getHostByID : Reply Unit
  getModuleRelation : Reply (List Int)
  auditHeader : GoErr
  saveAuditLog : Reply Unit

/-- Result of `getHostByVal`: the resolved record (if any), the external calls
issued, and the cache after the point-insert a backing-store hit performs. -/
structure ResolveOut where
  hostOpt : Option HostInst
  calls : List ExtCall
  cacheOut : HostCache
  deriving DecidableEq

/-- `getHostByVal` (source lines 664-707): probe the cache with each candidate
`cloudid::ip` key; on a miss parse `cloudid` as an integer (returning not-found
without any backing-store query when that fails), query the backing store, and
return the first row found after point-inserting it into the cache under the key
rendered from the row's own cloud-id and inner-IP fields. -/
def getHostByVal (env : Env) (cache : HostCache) (msg : SnapVal) : ResolveOut :=
  if (getIPS msg).isEmpty then ⟨none, [], cache⟩
  else
    match probeCache cache msg.cloudid (getIPS msg) with
    | some host => ⟨some host, [], cache⟩
    | none =>
      match atoiOpt msg.cloudid with
      | none => ⟨none, [], cache⟩
      | some cloudIDInt =>
        match env.dbHosts cloudIDInt (getIPS msg) msg.bizid with
        | [] => ⟨none, [ExtCall.dbFindHosts cloudIDInt (getIPS msg) msg.bizid], cache⟩
        | row :: _ =>
          ⟨some row, [ExtCall.dbFindHosts cloudIDInt (getIPS msg) msg.bizid],
            cacheSet cache (goSprint (hget row bkCloudIDField) ++ "::" ++
              goSprint (hget row bkHostInnerIPField)) row⟩

/-! ## The update pipeline (`Analyze`) -/

/-- Result of one `Analyze` run: the Go error return, the external calls issued in
order, the final state of the resolved host record (which the cache aliases in the
source), and the cache after any point-insert performed by resolution. -/
structure AnalyzeOut where
  result : GoErr
  calls : List ExtCall
  hostFinal : Option HostInst
  cacheFinal : HostCache
  deriving DecidableEq

/-- `outIp` extraction (source lines 422-425): the record's outer IP if it is a
string, `""` otherwise (the failed assertion is only logged). -/
def outerIpOf (host : HostInst) : String :=
  match hget host bkHostOuterIPField with
  | GoVal.vstr s => s
  | _ => ""

/-- Steps 6 of the pipeline (source lines 467-508): module relation, audit-log
header, audit-log save.  `host1` is the record after `copyVal`. -/
def analyzeAudit (env : Env) (host1 : HostInst) (calls : List ExtCall)
    (c0 : HostCache) (hostIdInt : Int) : AnalyzeOut :=
  let calls := calls ++ [ExtCall.getHostModuleRelation hostIdInt]
  match env.getModuleRelation with
  | Reply.transportErr m => ⟨GoErr.fail m, calls, some host1, c0⟩
  | Reply.resp false _ _ =>
    ⟨GoErr.fail "get moduleHostConfig failed, fail to create auditLog",
      calls, some host1, c0⟩
  | Reply.resp true _ appIDs =>
    let calls := calls ++ [ExtCall.getAuditLogHeader]
    match env.auditHeader with
    | GoErr.fail m => ⟨GoErr.fail m, calls, some host1, c0⟩
    | GoErr.ok =>
      let bizID := appIDs.headD 0
      let calls := calls ++ [ExtCall.saveAuditLog hostIdInt bizID]
      match env.saveAuditLog with
      | Reply.transportErr m => ⟨GoErr.fail m, calls, some host1, c0⟩
      | Reply.resp false emsg _ =>
        ⟨GoErr.fail ("create host audit log failed, err msg: " ++ emsg),
          calls, some host1, c0⟩
      | Reply.resp true _ _ => ⟨GoErr.ok, calls, some host1, c0⟩

/-- Steps 4-5 of the pipeline (source lines 444-466): persist via
`UpdateInstance`; only on success snapshot the record and apply the setter
(`copyVal`), then re-fetch the canonical record with `GetHostByID`.  Note the
source slip at lines 463-466: on a non-success `GetHostByID` application
response it executes `return err` where `err` is the `nil` error of the
successful transport, so the pipeline aborts with a `nil` error. -/
def analyzePersist (env : Env) (host : HostInst) (setter : List (String × GoVal))
    (calls : List ExtCall) (c0 : HostCache) (hostIdInt : Int) (hostIdStr : String) :
    AnalyzeOut :=
  let calls := calls ++ [ExtCall.updateInstance hostIdInt]
  match env.updateInstance with
  | Reply.transportErr m => ⟨GoErr.fail m, calls, some host, c0⟩
  | Reply.resp false emsg _ =>
    ⟨GoErr.fail ("UpdateInstacne http response error, err msg: " ++ emsg),
      calls, some host, c0⟩
  | Reply.resp true _ _ =>
    let host1 := copyVal setter host
    let calls := calls ++ [ExtCall.getHostByID hostIdStr]
    match env.getHostByID with
    | Reply.transportErr m => ⟨GoErr.fail m, calls, some host1, c0⟩
    | Reply.resp false _ _ => ⟨GoErr.ok, calls, some host1, c0⟩
    | Reply.resp true _ _ => analyzeAudit env host1 calls c0 hostIdInt

/-- The pipeline once a host record is resolved (source lines 401-443): extract
and validate the host id, write the raw snapshot to redis (failure only logged),
extract the inner IP (error when not a string), parse, change-detect, admitted, and
hand over to persistence. -/
def analyzeWithHost (env : Env) (percent : Int) (admitted : Bool) (msg : SnapVal)
    (host : HostInst) (calls0 : List ExtCall) (c0 : HostCache) : AnalyzeOut :=
  match hget host bkHostIDField with
  | GoVal.vint hostIdInt =>
    let hostIdStr := toString hostIdInt
    if hostIdStr = "" then
      ⟨GoErr.fail "get host id failed", calls0, some host, c0⟩
    else
      let calls := calls0 ++ [ExtCall.redisSet (redisSnapKey ++ hostIdStr)]
      match hget host bkHostInnerIPField with
      | GoVal.vstr innerIp =>
        let outIp := outerIpOf host
        let setter := parseSetter msg.data innerIp outIp
        if needToUpdate getFloat64ByInterface percent setter host then
          if admitted then analyzePersist env host setter calls c0 hostIdInt hostIdStr
          else ⟨GoErr.ok, calls, some host, c0⟩
        else ⟨GoErr.ok, calls, some host, c0⟩
      | _ => ⟨GoErr.fail "get host innerIp failed", calls, some host, c0⟩
  | _ =>
    ⟨GoErr.fail "host id convert from interface to int64 failed",
      calls0, some host, c0⟩

/-- `Analyze` (source lines 390-511).  `percent` is the configured
`changeRangePercent`; `admitted` is the rate limiter's `TryAccept()` answer for
this message. -/
def Analyze (env : Env) (percent : Int) (admitted : Bool) (cache : HostCache)
    (msg : SnapVal) : AnalyzeOut :=
  match getHostByVal env cache msg with
  | ⟨none, calls0, c0⟩ => ⟨GoErr.fail "host not found, continue", calls0, none, c0⟩
  | ⟨some host, calls0, c0⟩ => analyzeWithHost env percent admitted msg host calls0 c0

/-! ## The cache refresh cycle (`fetch`) -/

/-- The page size of the backing-store scan. -/
def pageLimit : Nat := 1000

/-- The rows the paginated loop of `fetch` (source lines 755-772) visits: read
`table[start, start+pageLimit)`, stop as soon as a page is short. -/
def fetchPages (table : List HostInst) (start : Nat) : List HostInst :=
  if ((table.drop start).take pageLimit).length < pageLimit then
    (table.drop start).take pageLimit
  else
    (table.drop start).take pageLimit ++ fetchPages table (start + pageLimit)
termination_by table.length - start
decreasing_by
  rename_i h
  simp only [pageLimit, List.length_take, List.length_drop] at h ⊢
  omega

/-- The composite key a row is cached under: `cloudid::innerip`, both rendered
with `fmt.Sprint` from the row itself. -/
def hostKey (row : HostInst) : String :=
  goSprint (hget row bkCloudIDField) ++ "::" ++ goSprint (hget row bkHostInnerIPField)

/-- `fetch` (source lines 752-775): build a brand-new generation from the
paginated scan of the backing host table. -/
def fetch (table : List HostInst) : HostCache :=
  (fetchPages table 0).foldl (fun c row => cacheSet c (hostKey row) row) []

/-!
# Theorems

## C1: the tolerance band of the change detector
-/

/-- **C1.** For a tolerance-eligible field (`bk_cpu`, `bk_cpu_mhz`, `bk_disk`,
`bk_mem`) whose candidate and current values differ: when either side fails the
float conversion the field is treated as unchanged; when both convert, with
`tolerance = current * (percent/100)` and `diff = candidate - current`, the field
is treated as unchanged exactly when `-tolerance < diff < tolerance`, strictly —
so `|diff| = tolerance` flags a change (see the boundary witness). -/
theorem needsUpdate_tolerance_band (toF : GoVal → Option ℚ) (percent : Int)
    (key : String) (val cur : GoVal)
    (hkey : key ∈ toleranceFields)
    (hnil : ¬(cur = GoVal.vnil ∧ val = GoVal.vstr ""))
    (hne : val ≠ cur) :
    ((toF val = none ∨ toF cur = none) →
      fieldNeedsUpdate toF percent key val cur = false)
    ∧ (∀ s c : ℚ, toF val = some s → toF cur = some c →
        (fieldNeedsUpdate toF percent key val cur = false ↔
          (-(c * ((percent : ℚ) / 100)) < s - c ∧
            s - c < c * ((percent : ℚ) / 100)))) := by
  constructor
  · intro h
    unfold fieldNeedsUpdate
    rw [if_neg hnil, if_pos (Ne.symm hne), if_pos hkey]
    rcases h with h | h
    · rw [h]
    · rw [h]
      cases toF val <;> rfl
  · intro s c hs hc
    unfold fieldNeedsUpdate
    rw [if_neg hnil, if_pos (Ne.symm hne), if_pos hkey, hs, hc]
    show (if -(c * ((percent : ℚ) / 100)) < s - c ∧ s - c < c * ((percent : ℚ) / 100)
        then false else true) = false ↔ _
    by_cases hcond : (-(c * ((percent : ℚ) / 100)) < s - c ∧
        s - c < c * ((percent : ℚ) / 100))
    · rw [if_pos hcond]
      exact iff_of_true rfl hcond
    · rw [if_neg hcond]
      exact iff_of_false (by decide) hcond

/-- Witness for C1 at the spec's boundary example: percent = 10, current = 100,
candidate = 110, so `diff = tolerance = 10`, and the change IS flagged; hypotheses
are discharged at this concrete input. -/
theorem needsUpdate_tolerance_band_witness :
    fieldNeedsUpdate getFloat64ByInterface 10 "bk_cpu"
      (GoVal.vint 110) (GoVal.vint 100) = true := by
  have h := (needsUpdate_tolerance_band getFloat64ByInterface 10 "bk_cpu"
    (GoVal.vint 110) (GoVal.vint 100) (by decide) (by decide) (by decide)).2
    ((110 : Int) : ℚ) ((100 : Int) : ℚ) rfl rfl
  revert h
  decide

/-! ## C4: exact comparison of the remaining fields -/

/-- **C4.** (i) An absent current value together with an empty-string candidate is
treated as unchanged (for every field); (ii) for a non-tolerance field every other
inequality makes the field flag a change; (iii) `needToUpdate` is `true` exactly
when some candidate field flags a change against the record (so it is `false` when
no field shows a difference, and the scan short-circuits at the first difference). -/
theorem needsUpdate_field_rules :
    (∀ (toF : GoVal → Option ℚ) (percent : Int) (key : String),
      fieldNeedsUpdate toF percent key (GoVal.vstr "") GoVal.vnil = false)
    ∧ (∀ (toF : GoVal → Option ℚ) (percent : Int) (key : String) (val cur : GoVal),
        key ∉ toleranceFields → ¬(cur = GoVal.vnil ∧ val = GoVal.vstr "") →
        val ≠ cur →
        fieldNeedsUpdate toF percent key val cur = true)
    ∧ (∀ (toF : GoVal → Option ℚ) (percent : Int) (src : List (String × GoVal))
        (h : HostInst),
        needToUpdate toF percent src h = true ↔
          ∃ kv ∈ src, fieldNeedsUpdate toF percent kv.1 kv.2 (hget h kv.1) = true) := by
  refine ⟨?_, ?_, ?_⟩
  · intro toF percent key
    unfold fieldNeedsUpdate
    rw [if_pos ⟨rfl, rfl⟩]
  · intro toF percent key val cur hkey hnil hne
    unfold fieldNeedsUpdate
    rw [if_neg hnil, if_pos (Ne.symm hne), if_neg hkey]
  · intro toF percent src h
    induction src with
    | nil => simp [needToUpdate]
    | cons kv rest ih =>
      obtain ⟨k, v⟩ := kv
      by_cases hf : fieldNeedsUpdate toF percent k v (hget h k) = true
      · simp [needToUpdate, hf]
      · simp only [needToUpdate, Bool.not_eq_true] at hf ⊢
        rw [hf]
        simp only [Bool.false_eq_true, if_false, ih, List.mem_cons]
        constructor
        · rintro ⟨kv, hmem, hkv⟩
          exact ⟨kv, Or.inr hmem, hkv⟩
        · rintro ⟨kv, hmem | hmem, hkv⟩
          · rw [hmem] at hkv
            rw [hkv] at hf
            cases hf
          · exact ⟨kv, hmem, hkv⟩

/-- Witness for C4: a differing non-tolerance field (`bk_os_type`, string vs
absent) flags a change; hypotheses discharged at this concrete input. -/
theorem needsUpdate_field_rules_witness :
    fieldNeedsUpdate getFloat64ByInterface 10 "bk_os_type"
      (GoVal.vstr "linux") GoVal.vnil = true :=
  needsUpdate_field_rules.2.1 getFloat64ByInterface 10 "bk_os_type"
    (GoVal.vstr "linux") GoVal.vnil (by decide) (by decide) (by decide)

/-! ## C6: candidate IP order and first-hit resolution -/

/-- The inner loop of `getIPS` over one interface's addresses appends exactly the
stripped non-loopback addresses, in order. -/
theorem getIPS_inner_fold (addrs : List String) (acc : List String) :
    addrs.foldl (fun acc addr =>
      let ip := stripSubnet addr
      if goHasPfx ip "127.0.0." then acc else acc ++ [ip]) acc
    = acc ++ addrs.filterMap (fun addr =>
        let ip := stripSubnet addr
        if goHasPfx ip "127.0.0." then none else some ip) := by
  induction addrs generalizing acc with
  | nil => simp
  | cons a rest ih =>
    simp only [List.foldl_cons, List.filterMap_cons]
    by_cases hp : goHasPfx (stripSubnet a) "127.0.0."
    · simp only [hp, if_true]
      rw [ih]
    · simp only [hp, if_false, Bool.false_eq_true]
      rw [ih, List.append_assoc]
      rfl

/-- The outer loop of `getIPS` over all interfaces appends the concatenation of
the per-interface candidate lists, in order. -/
theorem getIPS_outer_fold (itfs : List NetIface) (acc : List String) :
    itfs.foldl (fun acc itf =>
      itf.addrs.foldl (fun acc addr =>
        let ip := stripSubnet addr
        if goHasPfx ip "127.0.0." then acc else acc ++ [ip]) acc) acc
    = acc ++ itfs.flatMap (fun itf =>
        itf.addrs.filterMap (fun addr =>
          let ip := stripSubnet addr
          if goHasPfx ip "127.0.0." then none else some ip)) := by
  induction itfs generalizing acc with
  | nil => simp
  | cons itf rest ih =>
    simp only [List.foldl_cons, List.flatMap_cons]
    rw [getIPS_inner_fold, ih, List.append_assoc]

/-- **C6.** (i) The candidate IP list is: the message's top-level declared IP
first (unless it begins with `127.0.0.`), then every reported interface address
in reported order with any subnet suffix stripped and `127.0.0.`-prefixed
addresses skipped; (ii) the cache is probed with keys `cloudid::ip` in exactly
that order and the first hit wins. -/
theorem candidate_ips_and_first_hit :
    (∀ msg : SnapVal, getIPS msg = specCandidateIPs msg)
    ∧ (∀ (cache : HostCache) (cloudid : String) (ips : List String),
        probeCache cache cloudid ips =
          ips.findSome? (fun ip => cacheGet cache (cloudid ++ "::" ++ ip))) := by
  constructor
  · intro msg
    unfold getIPS specCandidateIPs
    rw [getIPS_outer_fold]
    by_cases hp : goHasPfx msg.ip "127.0.0."
    · simp [hp]
    · simp [hp]
  · intro cache cloudid ips
    induction ips with
    | nil => rfl
    | cons ip rest ih =>
      cases hcg : cacheGet cache (cloudid ++ "::" ++ ip) with
      | none => simp [probeCache, List.findSome?_cons, hcg, ih]
      | some host => simp [probeCache, List.findSome?_cons, hcg]

/-! ## C8: disk and memory unit conversions in the parser -/

/-- Three right shifts by 10 floor-divide by `2 ^ 30`. -/
theorem shift_thirty (t : Nat) : t >>> 10 >>> 10 >>> 10 = t / 2 ^ 30 := by
  simp only [Nat.shiftRight_eq_div_pow, Nat.div_div_eq_div_mul]
  norm_num

/-- Two right shifts by 10 floor-divide by `2 ^ 20`. -/
theorem shift_twenty (t : Nat) : t >>> 10 >>> 10 = t / 2 ^ 20 := by
  simp only [Nat.shiftRight_eq_div_pow, Nat.div_div_eq_div_mul]
  norm_num

/-- A left fold that adds `f t` and reduces mod `m` at each step computes the sum
of the mapped list, mod `m`. -/
theorem foldl_mod_add (f : Nat → Nat) (m : Nat) :
    ∀ (l : List Nat) (a : Nat),
      l.foldl (fun acc t => (acc + f t) % m) (a % m) = (a + (l.map f).sum) % m := by
  intro l
  induction l with
  | nil => intro a; simp
  | cons t rest ih =>
    intro a
    simp only [List.foldl_cons, List.map_cons, List.sum_cons]
    rw [Nat.mod_add_mod, ih (a + f t), Nat.add_assoc]

/-- **C8.** The parsed `bk_disk` value is the sum, over the reported partitions,
of each partition's total floor-divided to whole GiB (accumulated in a `uint64`,
hence mod `2 ^ 64`); the parsed `bk_mem` value is the reported total memory
floor-divided to whole MiB. -/
theorem parse_disk_mem_floor (d : SnapData) (innerIP outerIP : String) :
    (parseSetter d innerIP outerIP).lookup "bk_disk"
      = some (GoVal.vuint ((d.diskTotals.map (fun t => t / 2 ^ 30)).sum % 2 ^ 64))
    ∧ (parseSetter d innerIP outerIP).lookup "bk_mem"
      = some (GoVal.vuint (d.memTotal / 2 ^ 20)) := by
  have hfun : (fun t : Nat => t >>> 10 >>> 10 >>> 10) = (fun t : Nat => t / 2 ^ 30) :=
    funext shift_thirty
  constructor
  · show some (GoVal.vuint (d.diskTotals.foldl
      (fun a t => (a + (t >>> 10 >>> 10 >>> 10)) % 2 ^ 64) 0)) = _
    have h0 : (0 : Nat) = 0 % 2 ^ 64 := rfl
    rw [h0, foldl_mod_add (fun t => t >>> 10 >>> 10 >>> 10) (2 ^ 64) d.diskTotals 0,
      hfun, Nat.zero_add]
  · show some (GoVal.vuint (d.memTotal >>> 10 >>> 10)) = _
    rw [shift_twenty]

/-! ## C9: parsing is total, with a fixed key set -/

/-- **C9.** Parsing never fails: for every message body (and inner/outer IP) the
parser returns a field map with exactly the fixed fourteen keys, in particular no
key is ever absent; and on the fully-empty payload every value is zero or the
empty string. -/
theorem parse_total_fixed_keys :
    (∀ (d : SnapData) (innerIP outerIP : String),
      (parseSetter d innerIP outerIP).map Prod.fst =
        ["bk_cpu", "bk_cpu_module", "bk_cpu_mhz", "bk_disk", "bk_mem",
         "bk_os_type", "bk_os_name", "bk_os_version", "bk_host_name",
         "bk_outer_mac", "bk_mac", "bk_os_bit",
         hostFieldDockerClientVersion, hostFieldDockerServerVersion])
    ∧ parseSetter emptySnapData "" "" =
        [("bk_cpu", GoVal.vint 0), ("bk_cpu_module", GoVal.vstr ""),
         ("bk_cpu_mhz", GoVal.vint 0), ("bk_disk", GoVal.vuint 0),
         ("bk_mem", GoVal.vuint 0), ("bk_os_type", GoVal.vstr ""),
         ("bk_os_name", GoVal.vstr ""), ("bk_os_version", GoVal.vstr ""),
         ("bk_host_name", GoVal.vstr ""), ("bk_outer_mac", GoVal.vstr ""),
         ("bk_mac", GoVal.vstr ""), ("bk_os_bit", GoVal.vstr ""),
         (hostFieldDockerClientVersion, GoVal.vstr ""),
         (hostFieldDockerServerVersion, GoVal.vstr "")] := by
  constructor
  · intro d innerIP outerIP
    rfl
  · decide

/-! ## C7: the paginated refresh cycle populates exactly the backing store -/

/-- The paginated scan starting at `start` visits exactly the rows from `start`
on, independent of page-boundary placement. -/
theorem fetchPages_eq (table : List HostInst) (start : Nat) :
    fetchPages table start = table.drop start := by
  rw [fetchPages]
  split
  · rename_i h
    apply List.take_of_length_le
    simp only [List.length_take, List.length_drop] at h ⊢
    omega
  · rw [fetchPages_eq table (start + pageLimit)]
    have hdd : table.drop (start + pageLimit) = (table.drop start).drop pageLimit := by
      rw [List.drop_drop, Nat.add_comm]
    rw [hdd, List.take_append_drop]
termination_by table.length - start
decreasing_by
  rename_i h
  simp only [pageLimit, List.length_take, List.length_drop] at h ⊢
  omega

/-- Inserting under a fresh key grows the cache by one entry. -/
theorem cacheSet_length (c : HostCache) (k : String) (v : HostInst)
    (h : hasKey c k = false) : (cacheSet c k v).length = c.length + 1 := by
  induction c with
  | nil => rfl
  | cons kv rest ih =>
    simp only [hasKey, List.any_cons, Bool.or_eq_false_iff, decide_eq_false_iff_not] at h
    simp only [cacheSet, if_neg h.1, List.length_cons]
    have := ih (by simp only [hasKey]; exact h.2)
    omega

/-- The keys present after an insert are the old keys plus the inserted one. -/
theorem hasKey_cacheSet (c : HostCache) (k k2 : String) (v : HostInst) :
    hasKey (cacheSet c k v) k2 = (hasKey c k2 || decide (k = k2)) := by
  induction c with
  | nil => simp [cacheSet, hasKey]
  | cons kv rest ih =>
    by_cases he : kv.1 = k
    · by_cases h2 : k = k2 <;>
        simp [cacheSet, if_pos he, hasKey, he, h2]
    · simp only [cacheSet, if_neg he]
      simp [hasKey, List.any_cons] at ih ⊢
      rw [ih, Bool.or_assoc]

/-- Folding fresh, pairwise-distinct keys into a cache adds one entry per row. -/
theorem fetch_fold_length :
    ∀ (rows : List HostInst) (c : HostCache),
      (rows.map hostKey).Nodup →
      (∀ r ∈ rows, hasKey c (hostKey r) = false) →
      (rows.foldl (fun c row => cacheSet c (hostKey row) row) c).length =
        c.length + rows.length := by
  intro rows
  induction rows with
  | nil =>
    intro c _ _
    simp
  | cons r rest ih =>
    intro c hnd hfresh
    simp only [List.foldl_cons, List.length_cons]
    have hr : hasKey c (hostKey r) = false := hfresh r (List.mem_cons_self r rest)
    simp only [List.map_cons, List.nodup_cons, List.mem_map] at hnd
    have hfresh2 : ∀ r2 ∈ rest, hasKey (cacheSet c (hostKey r) r) (hostKey r2) = false := by
      intro r2 hm
      rw [hasKey_cacheSet]
      have hne : ¬(hostKey r = hostKey r2) := fun hcontra =>
        hnd.1 ⟨r2, hm, hcontra.symm⟩
      simp [hfresh r2 (List.mem_cons_of_mem r hm), hne]
    rw [ih (cacheSet c (hostKey r) r) hnd.2 hfresh2, cacheSet_length c _ r hr]
    omega

/-- **C7.** One full refresh cycle over a backing store of `N` rows visits every
row exactly once (the pages reassemble the table, independent of page-boundary
placement), and when the rows' composite `cloudid::innerip` keys are pairwise
distinct the new generation holds exactly `N` entries. -/
theorem fetch_round_trip :
    (∀ table : List HostInst, fetchPages table 0 = table)
    ∧ (∀ table : List HostInst, (table.map hostKey).Nodup →
        (fetch table).length = table.length) := by
  constructor
  · intro table
    rw [fetchPages_eq]
    exact List.drop_zero table
  · intro table hnd
    unfold fetch
    rw [fetchPages_eq, List.drop_zero]
    have h := fetch_fold_length table [] hnd (fun r _ => rfl)
    simpa using h

/-! ## Concrete inputs used by the pipeline claims -/

/-- An environment in which every external call succeeds. -/
def envAllOk : Env :=
  { dbHosts := fun _ _ _ => []
    updateInstance := Reply.resp true "" ()
    getHostByID := Reply.resp true "" ()
    getModuleRelation := Reply.resp true "" []
    auditHeader := GoErr.ok
    saveAuditLog := Reply.resp true "" () }

/-- A cached host record: id 7, inner IP `10.0.0.5`, 100 CPUs. -/
def hostW : HostInst :=
  [("bk_host_id", GoVal.vint 7), ("bk_host_innerip", GoVal.vstr "10.0.0.5"),
   ("bk_cpu", GoVal.vint 100)]

/-- A one-entry cache generation holding `hostW` under `0::10.0.0.5`. -/
def cacheW : HostCache := [("0::10.0.0.5", hostW)]

/-- A message from `10.0.0.5` in cloud 0 with an otherwise empty payload (its
parsed `bk_cpu` is 0, far outside the 10% band around the cached 100). -/
def msgW : SnapVal :=
  { ip := "10.0.0.5", cloudid := "0", bizid := "0", data := emptySnapData }

/-- Witness for C7 at a concrete two-row store with distinct composite keys. -/
theorem fetch_round_trip_witness :
    (([[("bk_cloud_id", GoVal.vint 0), ("bk_host_innerip", GoVal.vstr "10.0.0.1")],
       [("bk_cloud_id", GoVal.vint 0), ("bk_host_innerip", GoVal.vstr "10.0.0.2")]].map
        hostKey).Nodup)
    ∧ (fetch
        [[("bk_cloud_id", GoVal.vint 0), ("bk_host_innerip", GoVal.vstr "10.0.0.1")],
         [("bk_cloud_id", GoVal.vint 0), ("bk_host_innerip", GoVal.vstr "10.0.0.2")]]).length
      = 2 :=
  ⟨by decide,
   fetch_round_trip.2
     [[("bk_cloud_id", GoVal.vint 0), ("bk_host_innerip", GoVal.vstr "10.0.0.1")],
      [("bk_cloud_id", GoVal.vint 0), ("bk_host_innerip", GoVal.vstr "10.0.0.2")]]
     (by decide)⟩

/-! ## C10: cache miss with a non-integer cloud id -/

/-- **C10.** When no candidate key hits the cache and the message's `cloudid` is
not a decimal integer string, resolution returns not-found without any
backing-store query, and `Analyze` returns the host-not-found error without any
downstream call. -/
theorem miss_nonint_cloudid_no_db (env : Env) (percent : Int) (admitted : Bool)
    (cache : HostCache) (msg : SnapVal)
    (hmiss : probeCache cache msg.cloudid (getIPS msg) = none)
    (hcid : atoiOpt msg.cloudid = none) :
    (getHostByVal env cache msg).hostOpt = none
    ∧ (getHostByVal env cache msg).calls = []
    ∧ (Analyze env percent admitted cache msg).result =
        GoErr.fail "host not found, continue"
    ∧ (Analyze env percent admitted cache msg).calls = [] := by
  have hres : getHostByVal env cache msg = ⟨none, [], cache⟩ := by
    unfold getHostByVal
    by_cases hemp : (getIPS msg).isEmpty
    · rw [if_pos hemp]
    · rw [if_neg hemp, hmiss, hcid]
  refine ⟨?_, ?_, ?_, ?_⟩ <;> simp [Analyze, hres]

/-- Witness for C10: empty cache, `cloudid = "abc"`; hypotheses discharged at
this concrete input. -/
theorem miss_nonint_cloudid_no_db_witness :
    (getHostByVal envAllOk []
        { ip := "10.0.0.9", cloudid := "abc", bizid := "0", data := emptySnapData }).hostOpt
      = none
    ∧ (getHostByVal envAllOk []
        { ip := "10.0.0.9", cloudid := "abc", bizid := "0", data := emptySnapData }).calls
      = []
    ∧ (Analyze envAllOk 10 true []
        { ip := "10.0.0.9", cloudid := "abc", bizid := "0", data := emptySnapData }).result
      = GoErr.fail "host not found, continue"
    ∧ (Analyze envAllOk 10 true []
        { ip := "10.0.0.9", cloudid := "abc", bizid := "0", data := emptySnapData }).calls
      = [] :=
  miss_nonint_cloudid_no_db envAllOk 10 true []
    { ip := "10.0.0.9", cloudid := "abc", bizid := "0", data := emptySnapData }
    (by decide) (by decide)

/-! ## C5: a failed persist call surfaces an error and leaves the record alone -/

/-- **C5.** If the `UpdateInstance` call fails (transport error or non-success
application response), `Analyze` returns a non-nil error and the resolved
in-memory record is returned unchanged: the pre-update snapshot and the in-place
application of the new values happen only after the persistence call succeeded. -/
theorem persist_failure_preserves_record (env : Env) (percent : Int)
    (cache : HostCache) (msg : SnapVal) (host : HostInst) (n : Int) (inner : String)
    (hres : (getHostByVal env cache msg).hostOpt = some host)
    (hid : hget host bkHostIDField = GoVal.vint n)
    (hip : hget host bkHostInnerIPField = GoVal.vstr inner)
    (hneed : needToUpdate getFloat64ByInterface percent
        (parseSetter msg.data inner (outerIpOf host)) host = true)
    (hfail : replyFailedB env.updateInstance = true) :
    (∃ e, (Analyze env percent true cache msg).result = GoErr.fail e)
    ∧ (Analyze env percent true cache msg).hostFinal = some host := by
  cases hgv : getHostByVal env cache msg with
  | mk ho cs co =>
    rw [hgv] at hres
    simp only at hres
    subst hres
    simp only [Analyze, hgv]
    unfold analyzeWithHost
    rw [hid]
    by_cases hstr : toString n = ""
    · simp [hstr]
    · simp only [hstr, if_false, if_neg, ite_false]
      rw [hip]
      simp only [hneed, if_pos, ite_true, if_true]
      unfold analyzePersist
      cases hu : env.updateInstance with
      | transportErr m => simp
      | resp b emsg d =>
        cases b
        · simp
        · rw [hu] at hfail
          simp [replyFailedB] at hfail

/-- Witness for C5: the persist call fails with a transport error on a message
whose parsed CPU count (0) is far outside the 10% band around the cached 100;
hypotheses discharged at this concrete input. -/
theorem persist_failure_preserves_record_witness :
    (∃ e, (Analyze { envAllOk with updateInstance := Reply.transportErr "connection refused" }
        10 true cacheW msgW).result = GoErr.fail e)
    ∧ (Analyze { envAllOk with updateInstance := Reply.transportErr "connection refused" }
        10 true cacheW msgW).hostFinal = some hostW :=
  persist_failure_preserves_record
    { envAllOk with updateInstance := Reply.transportErr "connection refused" }
    10 cacheW msgW hostW 7 "10.0.0.5"
    (by decide) (by decide) (by decide) (by decide) (by decide)

/-! ## C2: the post-update re-fetch slip -/

/-- **C2 (failing input).** With a change-triggering message, a successful
persist, and a `GetHostByID` re-fetch that answers with a non-success
application response (`Result == false`), `Analyze` aborts the pipeline (no
module-relation or audit call is ever issued) but returns the **nil** error:
the source's `return err` at the non-success branch returns the `nil` error of
the successful transport.  This contradicts the claim (and the spec) that any
step-5/6 failure surfaces a non-nil error. -/
theorem analyze_refetch_nonsuccess_bug :
    (Analyze { envAllOk with getHostByID := Reply.resp false "forbidden" () }
        10 true cacheW msgW).result = GoErr.ok
    ∧ (Analyze { envAllOk with getHostByID := Reply.resp false "forbidden" () }
        10 true cacheW msgW).calls =
      [ExtCall.redisSet (redisSnapKey ++ "7"), ExtCall.updateInstance 7,
       ExtCall.getHostByID "7"] := by
  constructor
  · decide
  · decide

/-! ## C3: which runs return a non-nil error -/

/-- The causes after which `Analyze` may return a non-nil error: resolution
failure; a host id that is not an `int64` (or renders as the empty string);
a non-string inner IP; a persist failure; a re-fetch **transport** failure;
a module-relation failure; an audit-header failure; an audit-save failure. -/
def listedCause (env : Env) (cache : HostCache) (msg : SnapVal) : Prop :=
  (getHostByVal env cache msg).hostOpt = none
  ∨ (∃ host, (getHostByVal env cache msg).hostOpt = some host ∧
      ((∀ n : Int, hget host bkHostIDField ≠ GoVal.vint n)
        ∨ (∃ n : Int, hget host bkHostIDField = GoVal.vint n ∧ toString n = "")
        ∨ (∀ s : String, hget host bkHostInnerIPField ≠ GoVal.vstr s)))
  ∨ replyFailedB env.updateInstance = true
  ∨ transportOnlyB env.getHostByID = true
  ∨ replyFailedB env.getModuleRelation = true
  ∨ (∃ m, env.auditHeader = GoErr.fail m)
  ∨ replyFailedB env.saveAuditLog = true

/-- Step 6 returns `ok` unless the module-relation, audit-header or audit-save
call failed. -/
theorem analyzeAudit_causes (env : Env) (host1 : HostInst) (calls : List ExtCall)
    (c0 : HostCache) (hid : Int) :
    (analyzeAudit env host1 calls c0 hid).result = GoErr.ok
    ∨ replyFailedB env.getModuleRelation = true
    ∨ (∃ m, env.auditHeader = GoErr.fail m)
    ∨ replyFailedB env.saveAuditLog = true := by
  unfold analyzeAudit
  cases env.getModuleRelation with
  | transportErr m => simp [replyFailedB]
  | resp b emsg d =>
    cases b
    · simp [replyFailedB]
    · cases env.auditHeader with
      | fail m => simp [replyFailedB]
      | ok =>
        cases env.saveAuditLog with
        | transportErr m2 => simp [replyFailedB]
        | resp b2 e2 d2 => cases b2 <;> simp [replyFailedB]

/-- Steps 4-6 return `ok` unless the persist call failed, the re-fetch failed at
the transport level, or step 6 failed.  (A re-fetch with a non-success
application response also yields `ok`: the source slip documented at C2.) -/
theorem analyzePersist_causes (env : Env) (host : HostInst)
    (setter : List (String × GoVal)) (calls : List ExtCall) (c0 : HostCache)
    (hid : Int) (hidStr : String) :
    (analyzePersist env host setter calls c0 hid hidStr).result = GoErr.ok
    ∨ replyFailedB env.updateInstance = true
    ∨ transportOnlyB env.getHostByID = true
    ∨ replyFailedB env.getModuleRelation = true
    ∨ (∃ m, env.auditHeader = GoErr.fail m)
    ∨ replyFailedB env.saveAuditLog = true := by
  unfold analyzePersist
  cases env.updateInstance with
  | transportErr m => simp [replyFailedB]
  | resp b emsg d =>
    cases b
    · simp [replyFailedB]
    · cases env.getHostByID with
      | transportErr m => simp [transportOnlyB]
      | resp b2 e2 d2 =>
        cases b2
        · simp
        · have h := analyzeAudit_causes env (copyVal setter host)
            ((calls ++ [ExtCall.updateInstance hid]) ++ [ExtCall.getHostByID hidStr])
            c0 hid
          rcases h with h | h | h | h <;> simp only [h] <;> tauto

/-- Once a record is resolved, the pipeline returns `ok` unless the host id is
malformed, the inner IP is not a string, or steps 4-6 failed. -/
theorem analyzeWithHost_causes (env : Env) (percent : Int) (admitted : Bool)
    (msg : SnapVal) (host : HostInst) (calls0 : List ExtCall) (c0 : HostCache) :
    (analyzeWithHost env percent admitted msg host calls0 c0).result = GoErr.ok
    ∨ (∀ n : Int, hget host bkHostIDField ≠ GoVal.vint n)
    ∨ (∃ n : Int, hget host bkHostIDField = GoVal.vint n ∧ toString n = "")
    ∨ (∀ s : String, hget host bkHostInnerIPField ≠ GoVal.vstr s)
    ∨ replyFailedB env.updateInstance = true
    ∨ transportOnlyB env.getHostByID = true
    ∨ replyFailedB env.getModuleRelation = true
    ∨ (∃ m, env.auditHeader = GoErr.fail m)
    ∨ replyFailedB env.saveAuditLog = true := by
  unfold analyzeWithHost
  cases hid : hget host bkHostIDField with
  | vint n =>
    by_cases hstr : toString n = ""
    · simp [hstr]
    · simp only [hstr, if_false, if_neg, ite_false]
      cases hip : hget host bkHostInnerIPField with
      | vstr inner =>
        cases admitted
        · by_cases hn : needToUpdate getFloat64ByInterface percent
              (parseSetter msg.data inner (outerIpOf host)) host = true <;> simp [hn]
        · by_cases hneed : needToUpdate getFloat64ByInterface percent
              (parseSetter msg.data inner (outerIpOf host)) host = true
          · simp only [hneed, if_pos, ite_true, if_true]
            exact (analyzePersist_causes env host _ _ _ _ _).elim Or.inl (fun h => by tauto)
          · simp only [Bool.not_eq_true] at hneed
            simp [hneed]
      | vnil => simp
      | vint m => simp
      | vuint m => simp
      | vfloat q => simp
  | vnil => simp
  | vuint m => simp
  | vfloat q => simp
  | vstr s => simp

/-- **C3 (amended).** (i) Every `Analyze` run either returns the nil error or one
of the listed causes holds: host not resolved, malformed host id, non-string
inner IP (the amendment), or a failed step 4-6 call; (ii) a run that resolves a
well-formed record and then detects no change — or is declined by the rate
limiter — returns the nil error. -/
theorem analyze_error_causes_amended :
    (∀ (env : Env) (percent : Int) (admitted : Bool) (cache : HostCache) (msg : SnapVal),
      (Analyze env percent admitted cache msg).result = GoErr.ok ∨ listedCause env cache msg)
    ∧ (∀ (env : Env) (percent : Int) (admitted : Bool) (cache : HostCache) (msg : SnapVal)
        (host : HostInst) (n : Int) (inner : String),
        (getHostByVal env cache msg).hostOpt = some host →
        hget host bkHostIDField = GoVal.vint n →
        toString n ≠ "" →
        hget host bkHostInnerIPField = GoVal.vstr inner →
        (needToUpdate getFloat64ByInterface percent
            (parseSetter msg.data inner (outerIpOf host)) host = false ∨ admitted = false) →
        (Analyze env percent admitted cache msg).result = GoErr.ok) := by
  constructor
  · intro env percent admitted cache msg
    cases hgv : getHostByVal env cache msg with
    | mk ho cs co =>
      cases ho with
      | none => simp [Analyze, listedCause, hgv]
      | some host =>
        have h := analyzeWithHost_causes env percent admitted msg host cs co
        simp only [Analyze, hgv]
        rcases h with h | h
        · left; exact h
        · right
          unfold listedCause
          have hh : (getHostByVal env cache msg).hostOpt = some host := by rw [hgv]
          rcases h with h1 | h1 | h1 | h1 | h1 | h1 | h1 | h1
          · exact Or.inr (Or.inl ⟨host, hh, Or.inl h1⟩)
          · exact Or.inr (Or.inl ⟨host, hh, Or.inr (Or.inl h1)⟩)
          · exact Or.inr (Or.inl ⟨host, hh, Or.inr (Or.inr h1)⟩)
          · exact Or.inr (Or.inr (Or.inl h1))
          · exact Or.inr (Or.inr (Or.inr (Or.inl h1)))
          · exact Or.inr (Or.inr (Or.inr (Or.inr (Or.inl h1))))
          · exact Or.inr (Or.inr (Or.inr (Or.inr (Or.inr (Or.inl h1)))))
          · exact Or.inr (Or.inr (Or.inr (Or.inr (Or.inr (Or.inr h1)))))
  · intro env percent admitted cache msg host n inner hres hid hstr hip hskip
    cases hgv : getHostByVal env cache msg with
    | mk ho cs co =>
      rw [hgv] at hres
      simp only at hres
      subst hres
      simp only [Analyze, hgv]
      unfold analyzeWithHost
      rw [hid]
      simp only [hstr, if_false, if_neg, ite_false]
      rw [hip]
      rcases hskip with hno | hadm
      · simp [hno]
      · subst hadm
        by_cases hn : needToUpdate getFloat64ByInterface percent
            (parseSetter msg.data inner (outerIpOf host)) host = true <;> simp [hn]

/-- Witness for the amended C3 on the no-change path: a host whose record
carries only its id and inner IP, so every parsed field compares as unchanged;
hypotheses discharged at this concrete input. -/
theorem analyze_error_causes_amended_witness :
    (Analyze envAllOk 10 true
        [("0::10.0.0.5", [("bk_host_id", GoVal.vint 7),
                          ("bk_host_innerip", GoVal.vstr "10.0.0.5")])]
        msgW).result = GoErr.ok :=
  analyze_error_causes_amended.2 envAllOk 10 true
    [("0::10.0.0.5", [("bk_host_id", GoVal.vint 7),
                      ("bk_host_innerip", GoVal.vstr "10.0.0.5")])]
    msgW
    [("bk_host_id", GoVal.vint 7), ("bk_host_innerip", GoVal.vstr "10.0.0.5")]
    7 "10.0.0.5"
    (by decide) (by decide) (by decide) (by decide) (Or.inl (by decide))

/-- **C3 (counterexample to the claim as stated).** With every external call
succeeding, a resolved host whose record lacks a string `bk_host_innerip` makes
`Analyze` return a non-nil error — none of the claim's listed causes (host
resolved, host id converts to `int64`, and no step 4-6 call failed). -/
theorem analyze_innerip_error_counterexample :
    (Analyze envAllOk 10 true
        [("0::10.0.0.5", [("bk_host_id", GoVal.vint 7), ("bk_cpu", GoVal.vint 100)])]
        msgW).result = GoErr.fail "get host innerIp failed"
    ∧ (getHostByVal envAllOk
        [("0::10.0.0.5", [("bk_host_id", GoVal.vint 7), ("bk_cpu", GoVal.vint 100)])]
        msgW).hostOpt
      = some [("bk_host_id", GoVal.vint 7), ("bk_cpu", GoVal.vint 100)]
    ∧ hget [("bk_host_id", GoVal.vint 7), ("bk_cpu", GoVal.vint 100)] bkHostIDField
      = GoVal.vint 7
    ∧ replyFailedB envAllOk.updateInstance = false
    ∧ transportOnlyB envAllOk.getHostByID = false
    ∧ replyFailedB envAllOk.getModuleRelation = false
    ∧ envAllOk.auditHeader = GoErr.ok
    ∧ replyFailedB envAllOk.saveAuditLog = false := by
  refine ⟨?_, ?_, ?_, ?_, ?_, ?_, ?_, ?_⟩ <;> decide

end HostSnap
